import Mathlib

/-!
Verification of the settings registries of `src/routes/settings.js`:
two in-memory collections (categories and branches) with
list/get/create/update/delete/toggle handlers.

Shallow embedding conventions:
* The mutable module-level arrays `categories` and `branches` become
  explicit `List` states threaded through each handler.
* `new Date().toISOString()` / `Date.now()` become an explicit `now : Nat`
  parameter (milliseconds); `Date.now().toString()` is `toString now`.
  ISO-8601 strings of distinct milliseconds compare like the milliseconds
  themselves, so timestamps are kept as `Nat`.
* A JS field that can be `undefined` is an `Option`; `undefined` is `none`.
* express-validator chains are translated check by check
  (`notEmpty`, `isLength`, `matches`, `optional({ checkFalsy: true })`);
  each failing check contributes one error entry `(path, msg)` exactly as
  `validationResult(req).array()` would.  The third-party `isEmail`
  predicate is not part of this repository, so branch validation is
  parameterised by an arbitrary `isEmail : String → Bool`.
* Each handler returns its HTTP outcome as a `CrudResult` together with
  the collection after the call.
-/

namespace Settings

/-- One entry of the `errors.array()` payload of a 400 validation
response: the field path and the `withMessage` text. -/
structure FieldError where
  path : String
  msg : String
deriving DecidableEq

/-- Outcome of one handler call: 201/200 success carrying the affected
record, 400 validation failure carrying the error array, 400 uniqueness
conflict, or 404. -/
inductive CrudResult (α : Type) where
  | ok (record : α)
  | validationFailed (errors : List FieldError)
  | conflict (msg : String)
  | notFound (msg : String)
deriving DecidableEq

/-- `true` on the 400 outcomes (validation failure or uniqueness
conflict), the errors the spec calls recoverable. -/
def isRejected {α : Type} : CrudResult α → Bool
  | .validationFailed _ => true
  | .conflict _ => true
  | _ => false

/-- `true` exactly on the `conflict` outcome. -/
def isConflict {α : Type} : CrudResult α → Bool
  | .conflict _ => true
  | _ => false

/-- The record carried by a success outcome, `none` otherwise. -/
def resultRecord {α : Type} : CrudResult α → Option α
  | .ok c => some c
  | _ => none

/-- A category record of the `categories` array. -/
structure Category where
  _id : String
  name : String
  value : String
  label : String
  description : Option String
  isActive : Bool
  createdAt : Nat
  updatedAt : Nat
deriving DecidableEq

/-- A branch record of the `branches` array. -/
structure Branch where
  _id : String
  name : String
  description : Option String
  address : Option String
  phone : Option String
  email : Option String
  isActive : Bool
  createdAt : Nat
  updatedAt : Nat
deriving DecidableEq

/-- The seeded `categories` array (module initialisation), with `t0` the
load-time clock value used by its `new Date().toISOString()` calls. -/
def seedCategories (t0 : Nat) : List Category :=
  [ { _id := "1", name := "Frozen Products", value := "frozen-products",
      label := "Frozen Products",
      description := some "Products that need to be kept frozen",
      isActive := true, createdAt := t0, updatedAt := t0 },
    { _id := "2", name := "Main Products", value := "main-products",
      label := "Main Products", description := some "Primary food products",
      isActive := true, createdAt := t0, updatedAt := t0 },
    { _id := "3", name := "Desserts and Drinks", value := "desserts-drinks",
      label := "Desserts and Drinks",
      description := some "Sweet treats and beverages",
      isActive := true, createdAt := t0, updatedAt := t0 },
    { _id := "4", name := "Packaging Materials", value := "packaging-materials",
      label := "Packaging Materials",
      description := some "Materials for packaging products",
      isActive := true, createdAt := t0, updatedAt := t0 },
    { _id := "5", name := "Cleaning Materials", value := "cleaning-materials",
      label := "Cleaning Materials",
      description := some "Cleaning supplies and materials",
      isActive := true, createdAt := t0, updatedAt := t0 } ]

/-- The seeded `branches` array at load-time clock `t0`. -/
def seedBranches (t0 : Nat) : List Branch :=
  [ { _id := "1", name := "Main Branch",
      description := some "Primary restaurant location",
      address := some "123 Main Street, Seoul",
      phone := some "+82-2-1234-5678",
      email := some "main@restaurant.com",
      isActive := true, createdAt := t0, updatedAt := t0 },
    { _id := "2", name := "Downtown Branch",
      description := some "Downtown location",
      address := some "456 Downtown Ave, Seoul",
      phone := some "+82-2-2345-6789",
      email := some "downtown@restaurant.com",
      isActive := true, createdAt := t0, updatedAt := t0 } ]

/-- One character of the category `value` pattern `^[a-z0-9-]+$`. -/
def isSlugChar (c : Char) : Bool :=
  (97 ≤ c.toNat && c.toNat ≤ 122) || (48 ≤ c.toNat && c.toNat ≤ 57) || c == '-'

/-- The regex test `/^[a-z0-9-]+$/.test(s)`: non-empty and every
character lowercase-alphanumeric or a hyphen. -/
def matchesSlug (s : String) : Bool :=
  !s.isEmpty && s.data.all isSlugChar

/-- `optional({ checkFalsy: true }).isLength({ max })` on an optional
field: skipped when the field is missing or the empty string, otherwise
an error entry when the length exceeds `max`. -/
def checkFalsyMaxLen (field : Option String) (maxLen : Nat) (path msg : String) :
    List FieldError :=
  match field with
  | none => []
  | some s => if s ≠ "" && s.length > maxLen then [⟨path, msg⟩] else []

/-- Body of a `POST /categories` request.  `name` and `value` are
required fields; a missing field behaves as the empty string under the
`notEmpty` / `matches` validators, so both are plain strings. -/
structure CategoryCreateReq where
  name : String
  value : String
  description : Option String
deriving DecidableEq

/-- Body of a `PUT /categories/:id` request: every field optional, with
`none` for a field absent from the JSON body. -/
structure CategoryUpdateReq where
  name : Option String
  value : Option String
  description : Option String
deriving DecidableEq

/-- The `POST /categories` validator array: `name` notEmpty and
max-100, `value` notEmpty and slug pattern, `description` optional
(checkFalsy) max-500.  All checks run; errors accumulate in order. -/
def validateCategoryCreate (req : CategoryCreateReq) : List FieldError :=
  (if req.name = "" then [⟨"name", "Category name is required"⟩] else []) ++
  (if req.name.length > 100 then
    [⟨"name", "Category name cannot exceed 100 characters"⟩] else []) ++
  (if req.value = "" then [⟨"value", "Category value is required"⟩] else []) ++
  (if !matchesSlug req.value then
    [⟨"value", "Category value must contain only lowercase letters, numbers, and hyphens"⟩]
   else []) ++
  checkFalsyMaxLen req.description 500 "description"
    "Description cannot exceed 500 characters"

/-- The `PUT /categories/:id` validator array: as for create but each
field wrapped in `optional()`, so a missing field is skipped while a
present one must still satisfy its constraints. -/
def validateCategoryUpdate (req : CategoryUpdateReq) : List FieldError :=
  (match req.name with
   | none => []
   | some n =>
     (if n = "" then [⟨"name", "Category name cannot be empty"⟩] else []) ++
     (if n.length > 100 then
       [⟨"name", "Category name cannot exceed 100 characters"⟩] else [])) ++
  (match req.value with
   | none => []
   | some v =>
     (if v = "" then [⟨"value", "Category value cannot be empty"⟩] else []) ++
     (if !matchesSlug v then
       [⟨"value", "Category value must contain only lowercase letters, numbers, and hyphens"⟩]
      else [])) ++
  checkFalsyMaxLen req.description 500 "description"
    "Description cannot exceed 500 characters"

/-- `x || undefined` on an optional string field: the empty string (and
absence) is stored as absence. -/
def orUndefined (field : Option String) : Option String :=
  match field with
  | none => none
  | some s => if s = "" then none else some s

/-- JS truthiness of an optional string: `undefined` and `""` are
falsy. -/
def strTruthy (field : Option String) : Bool :=
  match field with
  | none => false
  | some s => s ≠ ""

/-- `findIndex` + in-place mutation of the matched element: replaces the
first element satisfying `p` by its image under `f`, returning the new
element and the resulting list, or `none` when `findIndex` is `-1`. -/
def mutateFirst {α : Type} (p : α → Bool) (f : α → α) : List α → Option (α × List α)
  | [] => none
  | x :: xs =>
    if p x then some (f x, f x :: xs)
    else
      match mutateFirst p f xs with
      | none => none
      | some (y, ys) => some (y, x :: ys)

/-- `findIndex` + `splice(index, 1)`: removes the first element
satisfying `p`, or `none` when `findIndex` is `-1`. -/
def removeFirst {α : Type} (p : α → Bool) : List α → Option (List α)
  | [] => none
  | x :: xs =>
    if p x then some xs
    else
      match removeFirst p xs with
      | none => none
      | some ys => some (x :: ys)

/-- `GET /categories`: the active records and the `total` count. -/
def listActiveCategories (cats : List Category) : List Category × Nat :=
  (cats.filter (fun c => c.isActive),
   (cats.filter (fun c => c.isActive)).length)

/-- `GET /categories/:id`: `find` by `_id`, 404 when absent. -/
def getCategoryById (cats : List Category) (id : String) : CrudResult Category :=
  match cats.find? (fun c => c._id == id) with
  | none => .notFound "Category not found"
  | some c => .ok c

/-- `POST /categories`: validate, reject a duplicate `value`
(case-sensitive, over the whole collection), otherwise append a record
with `_id = Date.now().toString()`, `label = name`,
`description || undefined`, `isActive = true` and both timestamps
`now`. -/
def createCategory (cats : List Category) (req : CategoryCreateReq) (now : Nat) :
    CrudResult Category × List Category :=
  let errors := validateCategoryCreate req
  if errors.isEmpty then
    if cats.any (fun c => c.value == req.value) then
      (.conflict "Category value already exists", cats)
    else
      let newCategory : Category :=
        { _id := toString now, name := req.name, value := req.value,
          label := req.name, description := orUndefined req.description,
          isActive := true, createdAt := now, updatedAt := now }
      (.ok newCategory, cats ++ [newCategory])
  else
    (.validationFailed errors, cats)

/-- The spread merge of `PUT /categories/:id`: `name` (together with
`label`) and `value` overwrite only when truthy, `description`
overwrites whenever present (`!== undefined`, so an explicit empty
string overwrites too), and `updatedAt` is refreshed unconditionally. -/
def mergeCategory (c : Category) (req : CategoryUpdateReq) (now : Nat) : Category :=
  let c1 :=
    match req.name with
    | some n => if n ≠ "" then { c with name := n, label := n } else c
    | none => c
  let c2 :=
    match req.value with
    | some v => if v ≠ "" then { c1 with value := v } else c1
    | none => c1
  let c3 :=
    match req.description with
    | some d => { c2 with description := some d }
    | none => c2
  { c3 with updatedAt := now }

/-- `PUT /categories/:id`: validate, 404 when the id is absent, reject a
duplicate `value` among the other records, otherwise replace the first
record with the merged one. -/
def updateCategory (cats : List Category) (id : String) (req : CategoryUpdateReq)
    (now : Nat) : CrudResult Category × List Category :=
  let errors := validateCategoryUpdate req
  if errors.isEmpty then
    match mutateFirst (fun c => c._id == id) (fun c => mergeCategory c req now) cats with
    | none => (.notFound "Category not found", cats)
    | some (updated, cats2) =>
      if strTruthy req.value &&
          cats.any (fun c => c.value == req.value.getD "" && c._id != id) then
        (.conflict "Category value already exists", cats)
      else
        (.ok updated, cats2)
  else
    (.validationFailed errors, cats)

/-- `DELETE /categories/:id`: `findIndex` + `splice`, 404 when absent. -/
def deleteCategory (cats : List Category) (id : String) :
    CrudResult Unit × List Category :=
  match removeFirst (fun c => c._id == id) cats with
  | none => (.notFound "Category not found", cats)
  | some cats2 => (.ok (), cats2)

/-- `PATCH /categories/:id/toggle-status`: flip `isActive` of the first
record with the id and refresh its `updatedAt`; 404 when absent. -/
def toggleCategoryStatus (cats : List Category) (id : String) (now : Nat) :
    CrudResult Category × List Category :=
  match mutateFirst (fun c => c._id == id)
      (fun c => { c with isActive := !c.isActive, updatedAt := now }) cats with
  | none => (.notFound "Category not found", cats)
  | some (c, cats2) => (.ok c, cats2)

/-- JS `toLowerCase()`: lower-case the string character by character.
(Structural recursion over the character list, so that it evaluates
inside the kernel.) -/
def toLowerJS (s : String) : String :=
  ⟨s.data.map Char.toLower⟩

/-- Body of a `POST /branches` request: `name` required (a missing
field behaves as the empty string under `notEmpty`), the rest
optional. -/
structure BranchCreateReq where
  name : String
  description : Option String
  address : Option String
  phone : Option String
  email : Option String
deriving DecidableEq

/-- Body of a `PUT /branches/:id` request: every field optional. -/
structure BranchUpdateReq where
  name : Option String
  description : Option String
  address : Option String
  phone : Option String
  email : Option String
deriving DecidableEq

/-- `optional({ checkFalsy: true }).isEmail()` on the `email` field:
skipped when missing or empty, otherwise an error entry when the
third-party email test fails. -/
def checkFalsyEmail (isEmail : String → Bool) (field : Option String) :
    List FieldError :=
  match field with
  | none => []
  | some s => if s ≠ "" && !isEmail s then [⟨"email", "Invalid email format"⟩] else []

/-- The `POST /branches` validator array: `name` notEmpty and max-100;
`description`, `address`, `phone` optional (checkFalsy) with max
lengths 500, 200, 20; `email` optional (checkFalsy) against the email
grammar. -/
def validateBranchCreate (isEmail : String → Bool) (req : BranchCreateReq) :
    List FieldError :=
  (if req.name = "" then [⟨"name", "Branch name is required"⟩] else []) ++
  (if req.name.length > 100 then
    [⟨"name", "Branch name cannot exceed 100 characters"⟩] else []) ++
  checkFalsyMaxLen req.description 500 "description"
    "Description cannot exceed 500 characters" ++
  checkFalsyMaxLen req.address 200 "address" "Address cannot exceed 200 characters" ++
  checkFalsyMaxLen req.phone 20 "phone" "Phone number cannot exceed 20 characters" ++
  checkFalsyEmail isEmail req.email

/-- The `PUT /branches/:id` validator array: `name` wrapped in
`optional()` (skipped only when missing), the other fields as for
create. -/
def validateBranchUpdate (isEmail : String → Bool) (req : BranchUpdateReq) :
    List FieldError :=
  (match req.name with
   | none => []
   | some n =>
     (if n = "" then [⟨"name", "Branch name cannot be empty"⟩] else []) ++
     (if n.length > 100 then
       [⟨"name", "Branch name cannot exceed 100 characters"⟩] else [])) ++
  checkFalsyMaxLen req.description 500 "description"
    "Description cannot exceed 500 characters" ++
  checkFalsyMaxLen req.address 200 "address" "Address cannot exceed 200 characters" ++
  checkFalsyMaxLen req.phone 20 "phone" "Phone number cannot exceed 20 characters" ++
  checkFalsyEmail isEmail req.email

/-- `GET /branches`: the active records and the `total` count. -/
def listActiveBranches (bs : List Branch) : List Branch × Nat :=
  (bs.filter (fun b => b.isActive), (bs.filter (fun b => b.isActive)).length)

/-- `GET /branches/:id`: `find` by `_id`, 404 when absent. -/
def getBranchById (bs : List Branch) (id : String) : CrudResult Branch :=
  match bs.find? (fun b => b._id == id) with
  | none => .notFound "Branch not found"
  | some b => .ok b

/-- `POST /branches`: validate, reject a duplicate `name`
(case-insensitive, over the whole collection), otherwise append a
record with `_id = Date.now().toString()`, every optional field stored
as `x || undefined`, `isActive = true` and both timestamps `now`. -/
def createBranch (isEmail : String → Bool) (bs : List Branch)
    (req : BranchCreateReq) (now : Nat) : CrudResult Branch × List Branch :=
  let errors := validateBranchCreate isEmail req
  if errors.isEmpty then
    if bs.any (fun b => toLowerJS b.name == toLowerJS req.name) then
      (.conflict "Branch name already exists", bs)
    else
      let newBranch : Branch :=
        { _id := toString now, name := req.name,
          description := orUndefined req.description,
          address := orUndefined req.address,
          phone := orUndefined req.phone,
          email := orUndefined req.email,
          isActive := true, createdAt := now, updatedAt := now }
      (.ok newBranch, bs ++ [newBranch])
  else
    (.validationFailed errors, bs)

/-- The spread merge of `PUT /branches/:id`: `name` overwrites only when
truthy, each optional field overwrites whenever present
(`!== undefined`), and `updatedAt` is refreshed unconditionally. -/
def mergeBranch (b : Branch) (req : BranchUpdateReq) (now : Nat) : Branch :=
  let b1 :=
    match req.name with
    | some n => if n ≠ "" then { b with name := n } else b
    | none => b
  let b2 :=
    match req.description with
    | some d => { b1 with description := some d }
    | none => b1
  let b3 :=
    match req.address with
    | some a => { b2 with address := some a }
    | none => b2
  let b4 :=
    match req.phone with
    | some ph => { b3 with phone := some ph }
    | none => b3
  let b5 :=
    match req.email with
    | some e => { b4 with email := some e }
    | none => b4
  { b5 with updatedAt := now }

/-- `PUT /branches/:id`: validate, 404 when the id is absent, reject a
case-insensitive duplicate `name` among the other records, otherwise
replace the first record with the merged one. -/
def updateBranch (isEmail : String → Bool) (bs : List Branch) (id : String)
    (req : BranchUpdateReq) (now : Nat) : CrudResult Branch × List Branch :=
  let errors := validateBranchUpdate isEmail req
  if errors.isEmpty then
    match mutateFirst (fun b => b._id == id) (fun b => mergeBranch b req now) bs with
    | none => (.notFound "Branch not found", bs)
    | some (updated, bs2) =>
      if strTruthy req.name &&
          bs.any (fun b =>
            toLowerJS b.name == toLowerJS (req.name.getD "") && b._id != id) then
        (.conflict "Branch name already exists", bs)
      else
        (.ok updated, bs2)
  else
    (.validationFailed errors, bs)

/-- `DELETE /branches/:id`: `findIndex` + `splice`, 404 when absent. -/
def deleteBranch (bs : List Branch) (id : String) :
    CrudResult Unit × List Branch :=
  match removeFirst (fun b => b._id == id) bs with
  | none => (.notFound "Branch not found", bs)
  | some bs2 => (.ok (), bs2)

/-- `PATCH /branches/:id/toggle-status`: flip `isActive` of the first
record with the id and refresh its `updatedAt`; 404 when absent. -/
def toggleBranchStatus (bs : List Branch) (id : String) (now : Nat) :
    CrudResult Branch × List Branch :=
  match mutateFirst (fun b => b._id == id)
      (fun b => { b with isActive := !b.isActive, updatedAt := now }) bs with
  | none => (.notFound "Branch not found", bs)
  | some (b, bs2) => (.ok b, bs2)

/-! General lemmas about the find/mutate/remove primitives shared by the
handlers. -/

theorem mutateFirst_eq_of_find? {α : Type} (p : α → Bool) (f : α → α)
    (l : List α) (c : α) (h : l.find? p = some c) :
    ∃ l2, mutateFirst p f l = some (f c, l2) ∧
      (p (f c) = true → l2.find? p = some (f c)) := by
  induction l with
  | nil => simp at h
  | cons x xs ih =>
    by_cases hx : p x
    · rw [List.find?_cons_of_pos _ hx] at h
      injection h with hxc
      subst hxc
      refine ⟨f x :: xs, by simp [mutateFirst, hx], ?_⟩
      intro hp
      rw [List.find?_cons_of_pos _ hp]
    · rw [List.find?_cons_of_neg _ hx] at h
      obtain ⟨l2, h1, h2⟩ := ih h
      refine ⟨x :: l2, by simp [mutateFirst, hx, h1], ?_⟩
      intro hp
      rw [List.find?_cons_of_neg _ hx]
      exact h2 hp

theorem removeFirst_eq_of_find? {α : Type} (g : α → String) (v : String)
    (l : List α) (c : α) (hn : (l.map g).Nodup)
    (h : l.find? (fun x => g x == v) = some c) :
    ∃ l2, removeFirst (fun x => g x == v) l = some l2
      ∧ l2.length + 1 = l.length
      ∧ l2.find? (fun x => g x == v) = none := by
  induction l with
  | nil => simp at h
  | cons x xs ih =>
    rw [List.map_cons, List.nodup_cons] at hn
    by_cases hx : g x == v
    · refine ⟨xs, by simp [removeFirst, hx], by simp, ?_⟩
      rw [List.find?_eq_none]
      intro y hy hbeq
      refine hn.1 ?_
      rw [List.mem_map]
      refine ⟨y, hy, ?_⟩
      have h1 : g x = v := by simpa using hx
      have h2 : g y = v := by simpa using hbeq
      rw [h1, h2]
    · rw [List.find?_cons_of_neg _ (by simpa using hx)] at h
      obtain ⟨l2, h1, h2, h3⟩ := ih hn.2 h
      refine ⟨x :: l2, by simp [removeFirst, hx, h1], by simp [← h2], ?_⟩
      rw [List.find?_cons_of_neg _ (by simpa using hx)]
      exact h3

theorem removeFirst_eq_none_of_find? {α : Type} (p : α → Bool) (l : List α)
    (h : l.find? p = none) : removeFirst p l = none := by
  induction l with
  | nil => rfl
  | cons x xs ih =>
    by_cases hx : p x
    · rw [List.find?_cons_of_pos _ hx] at h
      exact absurd h (by simp)
    · rw [List.find?_cons_of_neg _ hx] at h
      simp [removeFirst, hx, ih h]

theorem createCategory_rejected_state (cats : List Category)
    (req : CategoryCreateReq) (now : Nat) :
    isRejected (createCategory cats req now).1 = true →
      (createCategory cats req now).2 = cats := by
  simp only [createCategory]
  split
  · split
    · intro _; rfl
    · intro h; simp [isRejected] at h
  · intro _; rfl

theorem updateCategory_rejected_state (cats : List Category) (id : String)
    (req : CategoryUpdateReq) (now : Nat) :
    isRejected (updateCategory cats id req now).1 = true →
      (updateCategory cats id req now).2 = cats := by
  simp only [updateCategory]
  split
  · split
    · intro _; rfl
    · split
      · intro _; rfl
      · intro h; simp [isRejected] at h
  · intro _; rfl

theorem createBranch_rejected_state (isEmail : String → Bool) (bs : List Branch)
    (req : BranchCreateReq) (now : Nat) :
    isRejected (createBranch isEmail bs req now).1 = true →
      (createBranch isEmail bs req now).2 = bs := by
  simp only [createBranch]
  split
  · split
    · intro _; rfl
    · intro h; simp [isRejected] at h
  · intro _; rfl

theorem updateBranch_rejected_state (isEmail : String → Bool) (bs : List Branch)
    (id : String) (req : BranchUpdateReq) (now : Nat) :
    isRejected (updateBranch isEmail bs id req now).1 = true →
      (updateBranch isEmail bs id req now).2 = bs := by
  simp only [updateBranch]
  split
  · split
    · intro _; rfl
    · split
      · intro _; rfl
      · intro h; simp [isRejected] at h
  · intro _; rfl

/-! Claim theorems. -/

/-- Claim C1.  The claimed id uniqueness fails on the code: `_id` is
`Date.now().toString()`, so two valid category creates in the same
millisecond (here `now = 999`) both succeed and both return `_id`
`"999"` — after the first create the registry already holds a record
with id `"999"`, yet the second create returns that same id. -/
theorem C1_same_millisecond_creates_reuse_id :
    (resultRecord (createCategory (seedCategories 0)
        ⟨"Alpha", "alpha", none⟩ 999).1).map Category._id = some "999"
    ∧ ((createCategory (seedCategories 0) ⟨"Alpha", "alpha", none⟩ 999).2.map
        Category._id) = ["1", "2", "3", "4", "5", "999"]
    ∧ (resultRecord (createCategory
        ((createCategory (seedCategories 0) ⟨"Alpha", "alpha", none⟩ 999).2)
        ⟨"Beta", "beta", none⟩ 999).1).map Category._id = some "999" := by
  decide

/-- Claim C2.  Whenever a Create or Update in either registry is
rejected with a validation failure or a uniqueness conflict, the
collection after the call equals the collection before it. -/
theorem C2_rejected_writes_preserve_state (cats : List Category)
    (bs : List Branch) (isEmail : String → Bool) (creq : CategoryCreateReq)
    (ureq : CategoryUpdateReq) (bcreq : BranchCreateReq)
    (bureq : BranchUpdateReq) (cid bid : String) (now : Nat) :
    (isRejected (createCategory cats creq now).1 = true →
      (createCategory cats creq now).2 = cats)
    ∧ (isRejected (updateCategory cats cid ureq now).1 = true →
      (updateCategory cats cid ureq now).2 = cats)
    ∧ (isRejected (createBranch isEmail bs bcreq now).1 = true →
      (createBranch isEmail bs bcreq now).2 = bs)
    ∧ (isRejected (updateBranch isEmail bs bid bureq now).1 = true →
      (updateBranch isEmail bs bid bureq now).2 = bs) :=
  ⟨createCategory_rejected_state cats creq now,
   updateCategory_rejected_state cats cid ureq now,
   createBranch_rejected_state isEmail bs bcreq now,
   updateBranch_rejected_state isEmail bs bid bureq now⟩

/-- Witness for C2 at concrete rejected calls: a category create with an
empty name, a category update setting `value` to a seeded duplicate, a
branch create whose name collides with the seeded `"Main Branch"`, and a
branch update renaming branch `"1"` to the seeded `"Downtown Branch"`.
All four leave the seeded collections unchanged. -/
theorem C2_witness :
    (createCategory (seedCategories 0) ⟨"", "alpha", none⟩ 9).2
        = seedCategories 0
    ∧ (updateCategory (seedCategories 0) "1"
        ⟨none, some "main-products", none⟩ 9).2 = seedCategories 0
    ∧ (createBranch (fun _ => true) (seedBranches 0)
        ⟨"main branch", none, none, none, none⟩ 9).2 = seedBranches 0
    ∧ (updateBranch (fun _ => true) (seedBranches 0) "1"
        ⟨some "downtown branch", none, none, none, none⟩ 9).2
        = seedBranches 0 :=
  ⟨(C2_rejected_writes_preserve_state (seedCategories 0) (seedBranches 0)
      (fun _ => true) ⟨"", "alpha", none⟩ ⟨none, some "main-products", none⟩
      ⟨"main branch", none, none, none, none⟩
      ⟨some "downtown branch", none, none, none, none⟩ "1" "1" 9).1
      (by decide),
   (C2_rejected_writes_preserve_state (seedCategories 0) (seedBranches 0)
      (fun _ => true) ⟨"", "alpha", none⟩ ⟨none, some "main-products", none⟩
      ⟨"main branch", none, none, none, none⟩
      ⟨some "downtown branch", none, none, none, none⟩ "1" "1" 9).2.1
      (by decide),
   (C2_rejected_writes_preserve_state (seedCategories 0) (seedBranches 0)
      (fun _ => true) ⟨"", "alpha", none⟩ ⟨none, some "main-products", none⟩
      ⟨"main branch", none, none, none, none⟩
      ⟨some "downtown branch", none, none, none, none⟩ "1" "1" 9).2.2.1
      (by decide),
   (C2_rejected_writes_preserve_state (seedCategories 0) (seedBranches 0)
      (fun _ => true) ⟨"", "alpha", none⟩ ⟨none, some "main-products", none⟩
      ⟨"main branch", none, none, none, none⟩
      ⟨some "downtown branch", none, none, none, none⟩ "1" "1" 9).2.2.2
      (by decide)⟩

/-- Claim C3 counterexample.  The claim quantifies over every category
create whose `value` duplicates an existing record, but the handler runs
field validation before the uniqueness check: creating
`{name: "", value: "frozen-products"}` against the seeded collection —
`"frozen-products"` is already present — fails with a validation error,
not with a conflict. -/
theorem C3_counterexample :
    (createCategory (seedCategories 0) ⟨"", "frozen-products", none⟩ 9).1
      = .validationFailed [⟨"name", "Category name is required"⟩]
    ∧ isConflict (createCategory (seedCategories 0)
        ⟨"", "frozen-products", none⟩ 9).1 = false := by
  decide

/-- Claim C3 (amended).  For every category create that passes field
validation and whose `value` equals — case-sensitive exact match — the
`value` of some record already in the collection, active or inactive,
the operation fails with a conflict and the collection is unchanged. -/
theorem C3_duplicate_value_is_conflict (cats : List Category)
    (req : CategoryCreateReq) (now : Nat)
    (hval : validateCategoryCreate req = [])
    (hdup : cats.any (fun c => c.value == req.value) = true) :
    (createCategory cats req now).1 = .conflict "Category value already exists"
    ∧ (createCategory cats req now).2 = cats := by
  rw [createCategory]
  simp [hval, hdup]

/-- Witness for the amended C3: creating `{name: "X", value:
"frozen-products"}` — the seeded value, on a state whose owning record
has been toggled inactive — still conflicts and leaves the collection
unchanged. -/
theorem C3_witness :
    (createCategory (toggleCategoryStatus (seedCategories 0) "1" 3).2
        ⟨"X", "frozen-products", none⟩ 9).1
      = .conflict "Category value already exists"
    ∧ (createCategory (toggleCategoryStatus (seedCategories 0) "1" 3).2
        ⟨"X", "frozen-products", none⟩ 9).2
      = (toggleCategoryStatus (seedCategories 0) "1" 3).2 :=
  C3_duplicate_value_is_conflict (toggleCategoryStatus (seedCategories 0) "1" 3).2
    ⟨"X", "frozen-products", none⟩ 9 (by decide) (by decide)

set_option maxRecDepth 8000 in
/-- Claim C4 counterexample.  The claim quantifies over every branch
create whose name case-insensitively duplicates an existing branch, but
field validation runs before the uniqueness check: creating a branch
named `"main branch"` (the seeded `"Main Branch"` exists) together with
a 501-character description fails with a validation error, not with a
conflict. -/
theorem C4_counterexample :
    (createBranch (fun _ => true) (seedBranches 0)
        ⟨"main branch", some (String.mk (List.replicate 501 'a')),
          none, none, none⟩ 9).1
      = .validationFailed [⟨"description", "Description cannot exceed 500 characters"⟩]
    ∧ isConflict (createBranch (fun _ => true) (seedBranches 0)
        ⟨"main branch", some (String.mk (List.replicate 501 'a')),
          none, none, none⟩ 9).1 = false := by
  decide

/-- Claim C4 (amended).  For every branch create that passes field
validation and whose name equals, ignoring letter case, the name of some
existing branch record — active or inactive — the operation fails with a
conflict and the collection is unchanged; in particular creating
`"main branch"` when `"Main Branch"` exists fails. -/
theorem C4_duplicate_name_is_conflict (isEmail : String → Bool)
    (bs : List Branch) (req : BranchCreateReq) (now : Nat)
    (hval : validateBranchCreate isEmail req = [])
    (hdup : bs.any (fun b => toLowerJS b.name == toLowerJS req.name) = true) :
    (createBranch isEmail bs req now).1 = .conflict "Branch name already exists"
    ∧ (createBranch isEmail bs req now).2 = bs := by
  rw [createBranch]
  simp [hval, hdup]

/-- Witness for the amended C4: creating `{name: "main branch"}` against
the seeded branches (which hold `"Main Branch"`) conflicts and leaves
the collection unchanged. -/
theorem C4_witness :
    (createBranch (fun _ => true) (seedBranches 0)
        ⟨"main branch", none, none, none, none⟩ 9).1
      = .conflict "Branch name already exists"
    ∧ (createBranch (fun _ => true) (seedBranches 0)
        ⟨"main branch", none, none, none, none⟩ 9).2 = seedBranches 0 :=
  C4_duplicate_name_is_conflict (fun _ => true) (seedBranches 0)
    ⟨"main branch", none, none, none, none⟩ 9 (by decide) (by decide)

/-- Claim C5.  For every existing category (the record `find` resolves
for the requested id), an update whose body is only
`{description: ""}` sets the description to the explicit empty string
while leaving `name`, `value`, `label`, `_id`, `createdAt` and
`isActive` unchanged; and an update with the empty body `{}` leaves
every field unchanged except `updatedAt`, which is refreshed to the
call time. -/
theorem C5_update_description_clear_and_empty_body (cats : List Category)
    (id : String) (now : Nat) (c : Category)
    (h : cats.find? (fun x => x._id == id) = some c) :
    (updateCategory cats id ⟨none, none, some ""⟩ now).1
      = .ok { c with description := some "", updatedAt := now }
    ∧ (updateCategory cats id ⟨none, none, none⟩ now).1
      = .ok { c with updatedAt := now } := by
  obtain ⟨l2, h1, -⟩ := mutateFirst_eq_of_find? (fun x => x._id == id)
    (fun x => mergeCategory x ⟨none, none, some ""⟩ now) cats c h
  obtain ⟨l3, h2, -⟩ := mutateFirst_eq_of_find? (fun x => x._id == id)
    (fun x => mergeCategory x ⟨none, none, none⟩ now) cats c h
  constructor
  · simp only [updateCategory]
    rw [h1]
    rfl
  · simp only [updateCategory]
    rw [h2]
    rfl

/-- Witness for C5 on the seeded collection, updating category `"1"` at
time `7`: clearing the description keeps every other field, and the
empty body changes only `updatedAt`. -/
theorem C5_witness :
    (updateCategory (seedCategories 0) "1" ⟨none, none, some ""⟩ 7).1
      = .ok { _id := "1", name := "Frozen Products", value := "frozen-products",
              label := "Frozen Products", description := some "",
              isActive := true, createdAt := 0, updatedAt := 7 }
    ∧ (updateCategory (seedCategories 0) "1" ⟨none, none, none⟩ 7).1
      = .ok { _id := "1", name := "Frozen Products", value := "frozen-products",
              label := "Frozen Products",
              description := some "Products that need to be kept frozen",
              isActive := true, createdAt := 0, updatedAt := 7 } :=
  C5_update_description_clear_and_empty_body (seedCategories 0) "1" 7
    { _id := "1", name := "Frozen Products", value := "frozen-products",
      label := "Frozen Products",
      description := some "Products that need to be kept frozen",
      isActive := true, createdAt := 0, updatedAt := 0 } (by decide)

/-- Claim C6 counterexample.  `updatedAt` is just the current clock
reading, so a toggle in the same millisecond as the record's last write
does not strictly increase it: toggling seeded category `"1"` (whose
`updatedAt` is `0`) at clock `0` returns a record whose `updatedAt` is
still `0` — equal to, not strictly greater than, the previous value. -/
theorem C6_counterexample :
    ((seedCategories 0).find? (fun c => c._id == "1")).map Category.updatedAt
      = some 0
    ∧ (resultRecord (toggleCategoryStatus (seedCategories 0) "1" 0).1).map
        Category.updatedAt = some 0 := by
  decide

/-- Claim C6 (amended).  For every record in either registry, toggling
twice restores `isActive` to its value before the first toggle; and
when the clock strictly advances past the record's `updatedAt` before
each toggle (which the wall clock does not guarantee within one
millisecond), each toggle produces an `updatedAt` strictly greater than
the record's previous one. -/
theorem C6_toggle_twice_restores_status (cats : List Category)
    (bs : List Branch) (cid bid : String) (c : Category) (b : Branch)
    (n1 n2 m1 m2 : Nat)
    (hc : cats.find? (fun x => x._id == cid) = some c)
    (hc1 : c.updatedAt < n1) (hc2 : n1 < n2)
    (hb : bs.find? (fun x => x._id == bid) = some b)
    (hb1 : b.updatedAt < m1) (hb2 : m1 < m2) :
    (∃ c1 c2, resultRecord (toggleCategoryStatus cats cid n1).1 = some c1
      ∧ resultRecord (toggleCategoryStatus
          (toggleCategoryStatus cats cid n1).2 cid n2).1 = some c2
      ∧ c2.isActive = c.isActive
      ∧ c.updatedAt < c1.updatedAt ∧ c1.updatedAt < c2.updatedAt)
    ∧ (∃ b1 b2, resultRecord (toggleBranchStatus bs bid m1).1 = some b1
      ∧ resultRecord (toggleBranchStatus
          (toggleBranchStatus bs bid m1).2 bid m2).1 = some b2
      ∧ b2.isActive = b.isActive
      ∧ b.updatedAt < b1.updatedAt ∧ b1.updatedAt < b2.updatedAt) := by
  constructor
  · obtain ⟨l2, h1, h2⟩ := mutateFirst_eq_of_find? (fun x => x._id == cid)
      (fun x => { x with isActive := !x.isActive, updatedAt := n1 }) cats c hc
    have hpc := List.find?_some hc
    have hp : (fun x : Category => x._id == cid)
        ({ c with isActive := !c.isActive, updatedAt := n1 }) = true := by
      simpa using hpc
    obtain ⟨l3, h3, -⟩ := mutateFirst_eq_of_find? (fun x => x._id == cid)
      (fun x => { x with isActive := !x.isActive, updatedAt := n2 }) l2 _ (h2 hp)
    refine ⟨{ c with isActive := !c.isActive, updatedAt := n1 },
      { c with isActive := !(!c.isActive), updatedAt := n2 }, ?_, ?_, ?_, hc1, hc2⟩
    · simp [toggleCategoryStatus, h1, resultRecord]
    · simp only [toggleCategoryStatus, h1, h3, resultRecord]
    · simp
  · obtain ⟨l2, h1, h2⟩ := mutateFirst_eq_of_find? (fun x => x._id == bid)
      (fun x => { x with isActive := !x.isActive, updatedAt := m1 }) bs b hb
    have hpb := List.find?_some hb
    have hp : (fun x : Branch => x._id == bid)
        ({ b with isActive := !b.isActive, updatedAt := m1 }) = true := by
      simpa using hpb
    obtain ⟨l3, h3, -⟩ := mutateFirst_eq_of_find? (fun x => x._id == bid)
      (fun x => { x with isActive := !x.isActive, updatedAt := m2 }) l2 _ (h2 hp)
    refine ⟨{ b with isActive := !b.isActive, updatedAt := m1 },
      { b with isActive := !(!b.isActive), updatedAt := m2 }, ?_, ?_, ?_, hb1, hb2⟩
    · simp [toggleBranchStatus, h1, resultRecord]
    · simp only [toggleBranchStatus, h1, h3, resultRecord]
    · simp

/-- Witness for the amended C6 on the seeded collections: category `"1"`
toggled at times `1` then `2`, branch `"2"` toggled at times `3` then
`5`. -/
theorem C6_witness :
    (∃ c1 c2, resultRecord (toggleCategoryStatus (seedCategories 0) "1" 1).1
        = some c1
      ∧ resultRecord (toggleCategoryStatus
          (toggleCategoryStatus (seedCategories 0) "1" 1).2 "1" 2).1 = some c2
      ∧ c2.isActive = true ∧ 0 < c1.updatedAt ∧ c1.updatedAt < c2.updatedAt)
    ∧ (∃ b1 b2, resultRecord (toggleBranchStatus (seedBranches 0) "2" 3).1
        = some b1
      ∧ resultRecord (toggleBranchStatus
          (toggleBranchStatus (seedBranches 0) "2" 3).2 "2" 5).1 = some b2
      ∧ b2.isActive = true ∧ 0 < b1.updatedAt ∧ b1.updatedAt < b2.updatedAt) :=
  C6_toggle_twice_restores_status (seedCategories 0) (seedBranches 0) "1" "2"
    { _id := "1", name := "Frozen Products", value := "frozen-products",
      label := "Frozen Products",
      description := some "Products that need to be kept frozen",
      isActive := true, createdAt := 0, updatedAt := 0 }
    { _id := "2", name := "Downtown Branch",
      description := some "Downtown location",
      address := some "456 Downtown Ave, Seoul",
      phone := some "+82-2-2345-6789",
      email := some "downtown@restaurant.com",
      isActive := true, createdAt := 0, updatedAt := 0 }
    1 2 3 5 (by decide) (by decide) (by decide) (by decide) (by decide) (by decide)

/-- Claim C7.  ListActive is total (never fails): in every state it
returns exactly the records with `isActive = true`, its `total` equals
the length of the returned list, that length equals the number of
active records in the collection, and the empty collection yields the
empty list with total `0` — in both registries. -/
theorem C7_listActive_exactly_active (cats : List Category) (bs : List Branch) :
    (listActiveCategories cats).1 = cats.filter (fun c => c.isActive)
    ∧ (listActiveCategories cats).2 = (listActiveCategories cats).1.length
    ∧ (listActiveCategories cats).1.length = cats.countP (fun c => c.isActive)
    ∧ listActiveCategories [] = ([], 0)
    ∧ (listActiveBranches bs).1 = bs.filter (fun b => b.isActive)
    ∧ (listActiveBranches bs).2 = (listActiveBranches bs).1.length
    ∧ (listActiveBranches bs).1.length = bs.countP (fun b => b.isActive)
    ∧ listActiveBranches [] = ([], 0) := by
  refine ⟨rfl, rfl, ?_, rfl, rfl, rfl, ?_, rfl⟩ <;>
    simp [listActiveCategories, listActiveBranches,
      List.countP_eq_length_filter]

/-- Claim C8.  In a registry with unique ids, deleting a present id
removes exactly one record and a subsequent get by the same id yields
not-found; deleting an absent id yields not-found and leaves the
collection unchanged — in both registries. -/
theorem C8_delete_then_get_not_found (cats : List Category) (bs : List Branch)
    (cid cAbsent bid bAbsent : String) (c : Category) (b : Branch)
    (hcn : (cats.map (fun x => x._id)).Nodup)
    (hcfind : cats.find? (fun x => x._id == cid) = some c)
    (hcabsent : cats.find? (fun x => x._id == cAbsent) = none)
    (hbn : (bs.map (fun x => x._id)).Nodup)
    (hbfind : bs.find? (fun x => x._id == bid) = some b)
    (hbabsent : bs.find? (fun x => x._id == bAbsent) = none) :
    (∃ cats2, deleteCategory cats cid = (.ok (), cats2)
      ∧ cats2.length + 1 = cats.length
      ∧ getCategoryById cats2 cid = .notFound "Category not found")
    ∧ deleteCategory cats cAbsent = (.notFound "Category not found", cats)
    ∧ (∃ bs2, deleteBranch bs bid = (.ok (), bs2)
      ∧ bs2.length + 1 = bs.length
      ∧ getBranchById bs2 bid = .notFound "Branch not found")
    ∧ deleteBranch bs bAbsent = (.notFound "Branch not found", bs) := by
  refine ⟨?_, ?_, ?_, ?_⟩
  · obtain ⟨l2, h1, h2, h3⟩ :=
      removeFirst_eq_of_find? (fun x => x._id) cid cats c hcn hcfind
    exact ⟨l2, by simp [deleteCategory, h1], h2, by simp [getCategoryById, h3]⟩
  · simp [deleteCategory, removeFirst_eq_none_of_find? _ _ hcabsent]
  · obtain ⟨l2, h1, h2, h3⟩ :=
      removeFirst_eq_of_find? (fun x => x._id) bid bs b hbn hbfind
    exact ⟨l2, by simp [deleteBranch, h1], h2, by simp [getBranchById, h3]⟩
  · simp [deleteBranch, removeFirst_eq_none_of_find? _ _ hbabsent]

/-- Witness for C8 on the seeded collections: deleting category `"2"`
and branch `"1"` succeeds and the deleted ids no longer resolve;
deleting the absent id `"99"` fails and changes nothing. -/
theorem C8_witness :
    (∃ cats2, deleteCategory (seedCategories 0) "2" = (.ok (), cats2)
      ∧ cats2.length + 1 = (seedCategories 0).length
      ∧ getCategoryById cats2 "2" = .notFound "Category not found")
    ∧ deleteCategory (seedCategories 0) "99"
        = (.notFound "Category not found", seedCategories 0)
    ∧ (∃ bs2, deleteBranch (seedBranches 0) "1" = (.ok (), bs2)
      ∧ bs2.length + 1 = (seedBranches 0).length
      ∧ getBranchById bs2 "1" = .notFound "Branch not found")
    ∧ deleteBranch (seedBranches 0) "99"
        = (.notFound "Branch not found", seedBranches 0) :=
  C8_delete_then_get_not_found (seedCategories 0) (seedBranches 0) "2" "99"
    "1" "99"
    { _id := "2", name := "Main Products", value := "main-products",
      label := "Main Products", description := some "Primary food products",
      isActive := true, createdAt := 0, updatedAt := 0 }
    { _id := "1", name := "Main Branch",
      description := some "Primary restaurant location",
      address := some "123 Main Street, Seoul",
      phone := some "+82-2-1234-5678",
      email := some "main@restaurant.com",
      isActive := true, createdAt := 0, updatedAt := 0 }
    (by decide) (by decide) (by decide) (by decide) (by decide) (by decide)

theorem validateCategoryCreate_reports_name (req : CategoryCreateReq)
    (h : req.name = "" ∨ req.name.length > 100) :
    "name" ∈ (validateCategoryCreate req).map FieldError.path := by
  rcases h with h | h <;> simp [validateCategoryCreate, h]

theorem validateCategoryCreate_reports_value (req : CategoryCreateReq)
    (h : req.value = "" ∨ matchesSlug req.value = false) :
    "value" ∈ (validateCategoryCreate req).map FieldError.path := by
  rcases h with h | h
  · have hm : matchesSlug req.value = false := by rw [h]; rfl
    simp [validateCategoryCreate, h, hm]
  · simp [validateCategoryCreate, h]

theorem validateCategoryUpdate_reports_name (req : CategoryUpdateReq)
    (n : String) (hn : req.name = some n) (h : n = "" ∨ n.length > 100) :
    "name" ∈ (validateCategoryUpdate req).map FieldError.path := by
  rcases h with h | h <;> simp [validateCategoryUpdate, hn, h]

theorem validateCategoryUpdate_reports_value (req : CategoryUpdateReq)
    (v : String) (hv : req.value = some v)
    (h : v = "" ∨ matchesSlug v = false) :
    "value" ∈ (validateCategoryUpdate req).map FieldError.path := by
  rcases h with h | h
  · have hm : matchesSlug v = false := by rw [h]; rfl
    simp [validateCategoryUpdate, hv, h, hm]
  · simp [validateCategoryUpdate, hv, h]

theorem validateCategoryCreate_reports_description (req : CategoryCreateReq)
    (d : String) (hd : req.description = some d) (h1 : d ≠ "")
    (h2 : d.length > 500) :
    "description" ∈ (validateCategoryCreate req).map FieldError.path := by
  simp [validateCategoryCreate, checkFalsyMaxLen, hd, h1, h2]

theorem validateCategoryUpdate_reports_description (req : CategoryUpdateReq)
    (d : String) (hd : req.description = some d) (h1 : d ≠ "")
    (h2 : d.length > 500) :
    "description" ∈ (validateCategoryUpdate req).map FieldError.path := by
  simp [validateCategoryUpdate, checkFalsyMaxLen, hd, h1, h2]

theorem isEmpty_false_of_path_mem (l : List FieldError) (s : String)
    (h : s ∈ l.map FieldError.path) : l.isEmpty = false := by
  cases l
  · simp at h
  · rfl

/-- Claim C9.  Category Create and Update requests report every violated
field constraint, not just the first: whenever any field constraint is
violated the handler fails with the single validation-failed outcome
carrying the aggregated error list, and for each violated field — an
empty or over-long `name`, an empty or non-slug `value`, a non-empty
over-long `description`, in the create or the update validator — that
list contains an entry for that field.  In particular a request
violating more than one constraint gets an entry for each of them. -/
theorem C9_validation_reports_every_violated_field (cats : List Category)
    (req : CategoryCreateReq) (ureq : CategoryUpdateReq) (id : String)
    (now : Nat) :
    (((req.name = "" ∨ req.name.length > 100)
        ∨ (req.value = "" ∨ matchesSlug req.value = false)
        ∨ (∃ d, req.description = some d ∧ d ≠ "" ∧ d.length > 500)) →
      (createCategory cats req now).1
        = .validationFailed (validateCategoryCreate req))
    ∧ ((req.name = "" ∨ req.name.length > 100) →
      "name" ∈ (validateCategoryCreate req).map FieldError.path)
    ∧ ((req.value = "" ∨ matchesSlug req.value = false) →
      "value" ∈ (validateCategoryCreate req).map FieldError.path)
    ∧ ((∃ d, req.description = some d ∧ d ≠ "" ∧ d.length > 500) →
      "description" ∈ (validateCategoryCreate req).map FieldError.path)
    ∧ (((∃ n, ureq.name = some n ∧ (n = "" ∨ n.length > 100))
        ∨ (∃ v, ureq.value = some v ∧ (v = "" ∨ matchesSlug v = false))
        ∨ (∃ d, ureq.description = some d ∧ d ≠ "" ∧ d.length > 500)) →
      (updateCategory cats id ureq now).1
        = .validationFailed (validateCategoryUpdate ureq))
    ∧ ((∃ n, ureq.name = some n ∧ (n = "" ∨ n.length > 100)) →
      "name" ∈ (validateCategoryUpdate ureq).map FieldError.path)
    ∧ ((∃ v, ureq.value = some v ∧ (v = "" ∨ matchesSlug v = false)) →
      "value" ∈ (validateCategoryUpdate ureq).map FieldError.path)
    ∧ ((∃ d, ureq.description = some d ∧ d ≠ "" ∧ d.length > 500) →
      "description" ∈ (validateCategoryUpdate ureq).map FieldError.path) := by
  have mD : (∃ d, req.description = some d ∧ d ≠ "" ∧ d.length > 500) →
      "description" ∈ (validateCategoryCreate req).map FieldError.path := by
    rintro ⟨d, hd, h1, h2⟩
    exact validateCategoryCreate_reports_description req d hd h1 h2
  have mN2 : (∃ n, ureq.name = some n ∧ (n = "" ∨ n.length > 100)) →
      "name" ∈ (validateCategoryUpdate ureq).map FieldError.path := by
    rintro ⟨n, hn, h⟩
    exact validateCategoryUpdate_reports_name ureq n hn h
  have mV2 : (∃ v, ureq.value = some v ∧ (v = "" ∨ matchesSlug v = false)) →
      "value" ∈ (validateCategoryUpdate ureq).map FieldError.path := by
    rintro ⟨v, hv, h⟩
    exact validateCategoryUpdate_reports_value ureq v hv h
  have mD2 : (∃ d, ureq.description = some d ∧ d ≠ "" ∧ d.length > 500) →
      "description" ∈ (validateCategoryUpdate ureq).map FieldError.path := by
    rintro ⟨d, hd, h1, h2⟩
    exact validateCategoryUpdate_reports_description ureq d hd h1 h2
  refine ⟨?_, validateCategoryCreate_reports_name req,
    validateCategoryCreate_reports_value req, mD, ?_, mN2, mV2, mD2⟩
  · intro h
    have hne : (validateCategoryCreate req).isEmpty = false := by
      rcases h with h | h | h
      · exact isEmpty_false_of_path_mem _ _
          (validateCategoryCreate_reports_name req h)
      · exact isEmpty_false_of_path_mem _ _
          (validateCategoryCreate_reports_value req h)
      · exact isEmpty_false_of_path_mem _ _ (mD h)
    simp [createCategory, hne]
  · intro h
    have hne : (validateCategoryUpdate ureq).isEmpty = false := by
      rcases h with h | h | h
      · exact isEmpty_false_of_path_mem _ _ (mN2 h)
      · exact isEmpty_false_of_path_mem _ _ (mV2 h)
      · exact isEmpty_false_of_path_mem _ _ (mD2 h)
    simp [updateCategory, hne]

set_option maxRecDepth 8000 in
/-- Witness for C9: create body
`{name: "", value: "UPPER", description: <501 chars>}` and an update
body with the same three violations — each fails with a single
validation-failed outcome whose error list carries a `name`, a `value`
and a `description` entry. -/
theorem C9_witness :
    (createCategory (seedCategories 0)
        ⟨"", "UPPER", some (String.mk (List.replicate 501 'a'))⟩ 9).1
      = .validationFailed (validateCategoryCreate
          ⟨"", "UPPER", some (String.mk (List.replicate 501 'a'))⟩)
    ∧ "name" ∈ (validateCategoryCreate
        ⟨"", "UPPER", some (String.mk (List.replicate 501 'a'))⟩).map
        FieldError.path
    ∧ "value" ∈ (validateCategoryCreate
        ⟨"", "UPPER", some (String.mk (List.replicate 501 'a'))⟩).map
        FieldError.path
    ∧ "description" ∈ (validateCategoryCreate
        ⟨"", "UPPER", some (String.mk (List.replicate 501 'a'))⟩).map
        FieldError.path
    ∧ (updateCategory (seedCategories 0) "1"
        ⟨some "", some "UPPER", some (String.mk (List.replicate 501 'a'))⟩ 9).1
      = .validationFailed (validateCategoryUpdate
          ⟨some "", some "UPPER", some (String.mk (List.replicate 501 'a'))⟩)
    ∧ "name" ∈ (validateCategoryUpdate
        ⟨some "", some "UPPER", some (String.mk (List.replicate 501 'a'))⟩).map
        FieldError.path
    ∧ "value" ∈ (validateCategoryUpdate
        ⟨some "", some "UPPER", some (String.mk (List.replicate 501 'a'))⟩).map
        FieldError.path
    ∧ "description" ∈ (validateCategoryUpdate
        ⟨some "", some "UPPER", some (String.mk (List.replicate 501 'a'))⟩).map
        FieldError.path := by
  have h := C9_validation_reports_every_violated_field (seedCategories 0)
    ⟨"", "UPPER", some (String.mk (List.replicate 501 'a'))⟩
    ⟨some "", some "UPPER", some (String.mk (List.replicate 501 'a'))⟩ "1" 9
  exact ⟨h.1 (Or.inl (Or.inl rfl)),
    h.2.1 (Or.inl rfl),
    h.2.2.1 (Or.inr (by decide)),
    h.2.2.2.1 ⟨String.mk (List.replicate 501 'a'), rfl, by decide, by decide⟩,
    h.2.2.2.2.1 (Or.inl ⟨"", rfl, Or.inl rfl⟩),
    h.2.2.2.2.2.1 ⟨"", rfl, Or.inl rfl⟩,
    h.2.2.2.2.2.2.1 ⟨"UPPER", rfl, Or.inr (by decide)⟩,
    h.2.2.2.2.2.2.2 ⟨String.mk (List.replicate 501 'a'), rfl, by decide,
      by decide⟩⟩

theorem createCategory_ok_description (cats : List Category)
    (req : CategoryCreateReq) (now : Nat) (c : Category)
    (hc : (createCategory cats req now).1 = CrudResult.ok c) :
    c.description = orUndefined req.description := by
  simp only [createCategory] at hc
  split at hc
  · split at hc
    · simp at hc
    · simp only [] at hc
      injection hc with h2
      rw [← h2]
  · simp at hc

theorem createBranch_ok_optional_fields (isEmail : String → Bool)
    (bs : List Branch) (req : BranchCreateReq) (now : Nat) (b : Branch)
    (hb : (createBranch isEmail bs req now).1 = CrudResult.ok b) :
    b.description = orUndefined req.description
    ∧ b.address = orUndefined req.address
    ∧ b.phone = orUndefined req.phone
    ∧ b.email = orUndefined req.email := by
  simp only [createBranch] at hb
  split at hb
  · split at hb
    · simp at hb
    · simp only [] at hb
      injection hb with h2
      rw [← h2]
      exact ⟨rfl, rfl, rfl, rfl⟩
  · simp at hb

theorem orUndefined_falsy (o : Option String)
    (h : o = none ∨ o = some "") : orUndefined o = none := by
  rcases h with h | h <;> simp [orUndefined, h]

/-- Claim C10.  A Create in either registry that supplies an optional
field as the empty string or omits it stores that field as absent:
category `description` and branch `description`/`address`/`phone`/
`email` are `undefined` in the stored record, not the empty string.  By
contrast an Update whose body carries `description: ""` stores the
explicit empty string, so the two states differ. -/
theorem C10_falsy_optional_fields_stored_absent (cats : List Category)
    (bs : List Branch) (isEmail : String → Bool) (creq : CategoryCreateReq)
    (breq : BranchCreateReq) (id : String) (now : Nat) (c : Category)
    (b : Branch) (c0 : Category)
    (hc : (createCategory cats creq now).1 = .ok c)
    (hcd : creq.description = none ∨ creq.description = some "")
    (hb : (createBranch isEmail bs breq now).1 = .ok b)
    (hbd : breq.description = none ∨ breq.description = some "")
    (hba : breq.address = none ∨ breq.address = some "")
    (hbp : breq.phone = none ∨ breq.phone = some "")
    (hbe : breq.email = none ∨ breq.email = some "")
    (hfind : cats.find? (fun x => x._id == id) = some c0) :
    c.description = none
    ∧ b.description = none ∧ b.address = none ∧ b.phone = none
    ∧ b.email = none
    ∧ (resultRecord (updateCategory cats id ⟨none, none, some ""⟩ now).1).map
        Category.description = some (some "") := by
  obtain ⟨hb1, hb2, hb3, hb4⟩ :=
    createBranch_ok_optional_fields isEmail bs breq now b hb
  obtain ⟨l2, h1, -⟩ := mutateFirst_eq_of_find? (fun x => x._id == id)
    (fun x => mergeCategory x ⟨none, none, some ""⟩ now) cats c0 hfind
  refine ⟨?_, ?_, ?_, ?_, ?_, ?_⟩
  · rw [createCategory_ok_description cats creq now c hc,
      orUndefined_falsy _ hcd]
  · rw [hb1, orUndefined_falsy _ hbd]
  · rw [hb2, orUndefined_falsy _ hba]
  · rw [hb3, orUndefined_falsy _ hbp]
  · rw [hb4, orUndefined_falsy _ hbe]
  · simp only [updateCategory]
    rw [h1]
    rfl

/-- Witness for C10: a category created with `description: ""` and a
branch created with every optional field either empty or omitted store
those fields as absent, while updating seeded category `"1"` with
`description: ""` stores the explicit empty string. -/
theorem C10_witness :
    (createCategory (seedCategories 0) ⟨"Gamma", "gamma", some ""⟩ 9).1
      = .ok { _id := "9", name := "Gamma", value := "gamma", label := "Gamma",
              description := none, isActive := true, createdAt := 9,
              updatedAt := 9 }
    ∧ ({ _id := "9", name := "Gamma", value := "gamma", label := "Gamma",
         description := none, isActive := true, createdAt := 9,
         updatedAt := 9 : Category }).description = none
    ∧ ({ _id := "9", name := "New Branch", description := none,
         address := none, phone := none, email := none, isActive := true,
         createdAt := 9, updatedAt := 9 : Branch }).description = none
    ∧ (resultRecord (updateCategory (seedCategories 0) "1"
        ⟨none, none, some ""⟩ 9).1).map Category.description
      = some (some "") := by
  have h := C10_falsy_optional_fields_stored_absent (seedCategories 0)
    (seedBranches 0) (fun _ => true) ⟨"Gamma", "gamma", some ""⟩
    ⟨"New Branch", some "", none, none, some ""⟩ "1" 9
    { _id := "9", name := "Gamma", value := "gamma", label := "Gamma",
      description := none, isActive := true, createdAt := 9, updatedAt := 9 }
    { _id := "9", name := "New Branch", description := none, address := none,
      phone := none, email := none, isActive := true, createdAt := 9,
      updatedAt := 9 }
    { _id := "1", name := "Frozen Products", value := "frozen-products",
      label := "Frozen Products",
      description := some "Products that need to be kept frozen",
      isActive := true, createdAt := 0, updatedAt := 0 }
    (by decide) (Or.inr rfl) (by decide) (Or.inr rfl) (Or.inl rfl)
    (Or.inl rfl) (Or.inr rfl) (by decide)
  exact ⟨by decide, h.1, h.2.2.1, h.2.2.2.2.2⟩

end Settings
